import Mathlib

/-!
Verification development for the `proj2_nps.py` interactive national-sites
browser.  The program keeps one global dictionary `cache` (loaded from disk at
start, saved on exit), a lazy state-name → url index under the key
`"state_url"`, per-state lists of site records under the lower-cased state
name, and per-site nearby-place lists under the sub-key `"nearby"`.

The shallow embedding below models:
  * Python string helpers used by the script (`lower`, `strip`, `rstrip`,
    `str` on numbers) over `String`/`List Char`;
  * the cache dictionary as a typed record (`Cache`) whose shape mirrors the
    only shapes the script ever stores: the `"state_url"` mapping, and the
    state-name → site-record-list entries (each site record optionally
    carrying its `"nearby"` list);
  * the two remote sources (nps.gov pages and the MapQuest radius API) as a
    deterministic `Gateway` of fallible functions; a `.error` result stands
    for a `requests` failure, and the absence of an HTML element is a missing
    entry in the corresponding element list (Python raises `IndexError` on
    `find_all(...)[0]` there);
  * the functions `build_state_url_dict`, `get_site_instance`,
    `get_sites_for_state`, `get_nearby_places` directly, and the interactive
    `main` loop as a step function `step` over the navigation phase
    (`ChoosingState` / inner site-list loop) plus `runFrom` iterating it over
    a list of user inputs.  Prints are modelled as an event list `Ev`;
    `save_cache` followed by `exit()` is the event `Ev.flushCache` together
    with the `exited 0` result.
-/

/-- Membership of a character in a Python strip-character set. -/
def pyCharIn (chars : String) (c : Char) : Bool :=
  chars.data.contains c

/-- Python `s.lstrip(chars)`: drop leading characters belonging to `chars`. -/
def pyLstrip (s : String) (chars : String) : String :=
  String.mk (s.data.dropWhile (pyCharIn chars))

/-- Python `s.rstrip(chars)`: drop trailing characters belonging to `chars`. -/
def pyRstrip (s : String) (chars : String) : String :=
  String.mk ((s.data.reverse.dropWhile (pyCharIn chars)).reverse)

/-- Python `s.strip(chars)`. -/
def pyStrip (s : String) (chars : String) : String :=
  pyLstrip (pyRstrip s chars) chars

/-- Python `s.lower()` (the script only ever lower-cases ASCII state names). -/
def pyLower (s : String) : String :=
  String.mk (s.data.map Char.toLower)

/-- Decimal digits of `n`, least significant first; `fuel` bounds recursion
(`fuel = n` is always enough). -/
def digitsRev : Nat → Nat → List Char
  | 0, _ => []
  | _ + 1, 0 => []
  | fuel + 1, n + 1 => Nat.digitChar ((n + 1) % 10) :: digitsRev fuel ((n + 1) / 10)

/-- Python `str(n)` for a natural number. -/
def pyStr (n : Nat) : String :=
  if n = 0 then "0" else String.mk ((digitsRev n n).reverse)

/-- Errors a session can die of: a `requests` network/API failure, an
`IndexError` from `find_all(...)[0]` on a missing element, the `TypeError`
raised by `NationalSite(**d)` when `d` has an unexpected key, and a dictionary
`KeyError` (never actually reachable through `main`). -/
inductive PyErr
  | network
  | indexErr
  | typeErr
  | keyErr
deriving DecidableEq

/-- An `<a>` element matched on the nps.gov home page. -/
structure Anchor where
  text : String
  href : String
deriving DecidableEq

/-- The nps.gov home page: the anchors whose `href` matches
`/state/.*?/index.htm`. -/
structure HomePage where
  hrefs : List Anchor
deriving DecidableEq

/-- A national-site page, as the lists of texts `find_all` returns for each
selector used by `get_site_instance` (empty list = element absent). -/
structure SitePage where
  heroTitle : List String
  heroDesignation : List String
  addressLocality : List String
  region : List String
  postalCode : List String
  tel : List String
deriving DecidableEq

/-- One raw match of the MapQuest radius search (`searchResults` element),
restricted to the fields the script reads. -/
structure RawPlace where
  name : String
  group_sic_code_name : String
  address : String
  city : String
deriving DecidableEq

/-- The parameter dictionary `get_nearby_places` sends to the MapQuest
endpoint (the API key, an external secret, is omitted). -/
structure NearbyRequest where
  origin : String
  radius : Nat
  maxMatches : Nat
  ambiguities : String
  outFormat : String
deriving DecidableEq

/-- The two remote data sources, as deterministic fallible functions:
`.error ()` models a network/API failure of the underlying `requests` call. -/
structure Gateway where
  homePage : Except Unit HomePage
  statePage : String → Except Unit (List String)
  sitePage : String → Except Unit SitePage
  nearbyResp : NearbyRequest → Except Unit (List RawPlace)

/-- The `NationalSite` class (attribute order as in `__init__`). -/
structure NationalSite where
  category : String
  name : String
  address : String
  zipcode : String
  phone : String
deriving DecidableEq

/-- A nearby-place record as built in `main` from a raw MapQuest match. -/
structure Place where
  name : String
  category : String
  address : String
  city : String
deriving DecidableEq

/-- A cached site record: `NationalSite.to_dict()` output, optionally
enriched in place with the `"nearby"` sub-key. -/
structure SiteEntry where
  category : String
  name : String
  address : String
  zipcode : String
  phone : String
  nearby : Option (List Place)
deriving DecidableEq

/-- The global `cache` dictionary.  The script stores exactly two kinds of
entries in the one flat dict: the `"state_url"` mapping and, under each
lower-cased state name, the list of site records; both sub-dictionaries are
modelled as insertion-ordered association lists, matching Python dicts. -/
structure Cache where
  state_url : Option (List (String × String))
  states : List (String × List SiteEntry)
deriving DecidableEq

/-- Python `d[k]` as an option (first binding wins; `aset` keeps keys
unique). -/
def alookup {α : Type} : List (String × α) → String → Option α
  | [], _ => none
  | (k', v) :: t, k => if k' = k then some v else alookup t k

/-- Python `d[k] = v`: update the existing binding in place, else append,
preserving insertion order exactly as a Python dict does. -/
def aset {α : Type} : List (String × α) → String → α → List (String × α)
  | [], k, v => [(k, v)]
  | (k', v') :: t, k, v => if k' = k then (k', v) :: t else (k', v') :: aset t k v

/-- Python truthiness of `d.get(k)` when the stored values are containers:
present and non-empty. -/
def pyTruthy {α : Type} : Option (List α) → Bool
  | some (_ :: _) => true
  | _ => false

/-- Observable actions of the script: the cache-status prints, the two
error messages, the two display blocks, and `save_cache` (which serializes
the whole store and overwrites the cache file). -/
inductive Ev
  | usingCache
  | fetching
  | errorStateName
  | errorInvalidInput
  | displaySites (state : String) (sites : List SiteEntry)
  | displayNearby (places : List Place)
  | flushCache (c : Cache)
deriving DecidableEq

/-- `home_url` in `build_state_url_dict`. -/
def homeUrl : String := "https://www.nps.gov/index.htm"

/-- The dictionary comprehension loop of `build_state_url_dict`: key is
`href.text.lower()` (no whitespace trimming), value is
`home_url.rstrip('/index.htm') + href['href'].strip(' ')`. -/
def buildStateDict (page : HomePage) : List (String × String) :=
  page.hrefs.foldl
    (fun df a => aset df (pyLower a.text) (pyRstrip homeUrl "/index.htm" ++ pyStrip a.href " "))
    []

/-- `build_state_url_dict()`: serve `cache['state_url']` when truthy, else
fetch the home page, build the mapping, store it, return it.  The result
carries the returned mapping, the cache after the call, and the prints. -/
def build_state_url_dict (g : Gateway) (c : Cache) :
    Except PyErr (List (String × String) × Cache × List Ev) :=
  if pyTruthy c.state_url then
    .ok (c.state_url.getD [], c, [.usingCache])
  else
    match g.homePage with
    | .error _ => .error .network
    | .ok page =>
      let df := buildStateDict page
      .ok (df, { c with state_url := some df }, [.fetching])

/-- `get_site_instance(site_url)`: extract the record from the site page.
Name, designation and phone are unguarded `find_all(...)[0]` lookups
(`IndexError` when absent); the address and postal-code lookups sit in
`try/except` blocks falling back to `''`. -/
def get_site_instance (g : Gateway) (site_url : String) : Except PyErr NationalSite :=
  match g.sitePage site_url with
  | .error _ => .error .network
  | .ok soup =>
    match soup.heroTitle with
    | [] => .error .indexErr
    | nm :: _ =>
      match soup.heroDesignation with
      | [] => .error .indexErr
      | ds :: _ =>
        let address :=
          match soup.addressLocality, soup.region with
          | l :: _, r :: _ => l ++ ", " ++ r
          | _, _ => ""
        let zip :=
          match soup.postalCode with
          | z :: _ => pyRstrip z " "
          | [] => ""
        match soup.tel with
        | [] => .error .indexErr
        | ph :: _ =>
          .ok { category := ds, name := nm, address := address, zipcode := zip,
                phone := pyStrip ph "\n" }

/-- The fetch loop of `get_sites_for_state`: prints `Fetching` before each
site fetch; the first exception aborts the loop and propagates. -/
def fetchSites (g : Gateway) : List String → List Ev × Except PyErr (List NationalSite)
  | [] => ([], .ok [])
  | u :: us =>
    match get_site_instance g u with
    | .error e => ([.fetching], .error e)
    | .ok s =>
      let r := fetchSites g us
      (.fetching :: r.1, r.2.map (fun l => s :: l))

/-- `get_sites_for_state(state_url)`: fetch the state page, build the site
urls `'https://www.nps.gov' + href + 'index.htm'`, fetch each site. -/
def get_sites_for_state (g : Gateway) (state_url : String) :
    List Ev × Except PyErr (List NationalSite) :=
  match g.statePage state_url with
  | .error _ => ([], .error .network)
  | .ok divs => fetchSites g (divs.map (fun d => "https://www.nps.gov" ++ d ++ "index.htm"))

/-- The fixed parameter dictionary of `get_nearby_places` for a given origin
zip code: radius 10, maxMatches 10, ambiguities ignored. -/
def mkNearbyRequest (zip : String) : NearbyRequest :=
  { origin := zip, radius := 10, maxMatches := 10, ambiguities := "ignore", outFormat := "json" }

/-- `get_nearby_places(site_object)`: query the MapQuest radius endpoint with
the site's zip code as origin. -/
def get_nearby_places (g : Gateway) (site_object : NationalSite) : Except PyErr (List RawPlace) :=
  match g.nearbyResp (mkNearbyRequest site_object.zipcode) with
  | .error _ => .error .network
  | .ok raws => .ok raws

/-- The normalization `main` applies to each raw MapQuest match: empty
category/address/city become explicit `no <field>` placeholders. -/
def normalizePlace (site : RawPlace) : Place :=
  { name := site.name
    category := if site.group_sic_code_name = "" then "no category" else site.group_sic_code_name
    address := if site.address = "" then "no address" else site.address
    city := if site.city = "" then "no city" else site.city }

/-- `NationalSite.to_dict()`: the instance `__dict__`, which has exactly the
five constructor attributes (no `nearby` key yet). -/
def NationalSite.to_dict (s : NationalSite) : SiteEntry :=
  { category := s.category, name := s.name, address := s.address,
    zipcode := s.zipcode, phone := s.phone, nearby := none }

/-- `NationalSite(**d)` for a cached site record `d`: succeeds on the five
constructor keys, but raises `TypeError` when the record also carries the
`"nearby"` key (an unexpected keyword argument). -/
def nationalSiteOfDict (se : SiteEntry) : Except PyErr NationalSite :=
  match se.nearby with
  | some _ => .error .typeErr
  | none =>
    .ok { category := se.category, name := se.name, address := se.address,
          zipcode := se.zipcode, phone := se.phone }

/-- Navigation phase of `main`: the outer state-selection prompt, or the
inner site-list prompt with the chosen (lower-cased) state name bound. -/
inductive Phase
  | choosing
  | viewing (state : String)
deriving DecidableEq

/-- Result of handling one line of user input: continue at some phase with
the (possibly mutated) cache, terminate via `exit()` with an exit status, or
die of an uncaught exception.  Each result carries the cache contents at
that moment and the prints emitted during the step. -/
inductive StepResult
  | next (ph : Phase) (c : Cache) (evs : List Ev)
  | exited (status : Nat) (c : Cache) (evs : List Ev)
  | crashed (e : PyErr) (c : Cache) (evs : List Ev)
deriving DecidableEq

/-- The cache contents after a step. -/
def StepResult.cache : StepResult → Cache
  | .next _ c _ => c
  | .exited _ c _ => c
  | .crashed _ c _ => c

/-- One iteration of the outer loop of `main` on input `raw`:
lower-case the input; unknown non-exit names re-prompt with an error;
`exit` saves the cache and terminates with status 0; a known name serves the
state entry from the cache when truthy (printing `Using cache` once per
record) or fetches, stores and displays it, entering the inner loop. -/
def stepChoosing (g : Gateway) (urls : List (String × String)) (c : Cache) (raw : String) :
    StepResult :=
  let state_name := pyLower raw
  if alookup urls state_name = none ∧ state_name ≠ "exit" then
    .next .choosing c [.errorStateName]
  else if state_name = "exit" then
    .exited 0 c [.flushCache c]
  else
    if pyTruthy (alookup c.states state_name) then
      let sites := (alookup c.states state_name).getD []
      .next (.viewing state_name) c
        (sites.map (fun _ => Ev.usingCache) ++ [.displaySites state_name sites])
    else
      match alookup urls state_name with
      | none => .crashed .keyErr c []
      | some state_url =>
        match get_sites_for_state g state_url with
        | (evs, .error e) => .crashed e c evs
        | (evs, .ok fetched) =>
          let sl := fetched.map NationalSite.to_dict
          .next (.viewing state_name) { c with states := aset c.states state_name sl }
            (evs ++ [.displaySites state_name sl])

/-- One iteration of the inner loop of `main` on input `raw` while viewing
state `st`.  The numeric check compares `raw` against `str(1) .. str(len)`;
a valid number serves the site's `nearby` list from the cache when truthy,
else rebuilds a `NationalSite` from the cached record (a `TypeError` when the
record already carries a `nearby` key), queries MapQuest, normalizes, and
attaches the list in place under `"nearby"`.  Otherwise `exit` saves and
terminates, `back` returns to the outer loop, and anything else re-prompts
with an error. -/
def stepViewing (g : Gateway) (st : String) (c : Cache) (raw : String) : StepResult :=
  let sites := (alookup c.states st).getD []
  match (List.range sites.length).find? (fun i => raw == pyStr (i + 1)) with
  | some i =>
    match sites[i]? with
    | none => .crashed .keyErr c []
    | some se =>
      if pyTruthy se.nearby then
        .next (.viewing st) c [.usingCache, .displayNearby (se.nearby.getD [])]
      else
        match nationalSiteOfDict se with
        | .error e => .crashed e c [.fetching]
        | .ok ns =>
          match get_nearby_places g ns with
          | .error e => .crashed e c [.fetching]
          | .ok raws =>
            let places := raws.map normalizePlace
            .next (.viewing st)
              { c with states := aset c.states st (sites.set i { se with nearby := some places }) }
              [.fetching, .displayNearby places]
  | none =>
    if raw = "exit" then .exited 0 c [.flushCache c]
    else if raw = "back" then .next .choosing c []
    else .next (.viewing st) c [.errorInvalidInput]

/-- One step of `main`'s interactive loop, given the `state_urls` mapping
bound once at session start. -/
def step (g : Gateway) (urls : List (String × String)) (ph : Phase) (c : Cache) (raw : String) :
    StepResult :=
  match ph with
  | .choosing => stepChoosing g urls c raw
  | .viewing st => stepViewing g st c raw

/-- Outcome of feeding a whole input list to the session loop. -/
inductive Outcome
  | pending (ph : Phase) (c : Cache)
  | exited (status : Nat) (c : Cache)
  | crashed (e : PyErr) (c : Cache)
deriving DecidableEq

/-- The cache contents at the end of a run. -/
def Outcome.cache : Outcome → Cache
  | .pending _ c => c
  | .exited _ c => c
  | .crashed _ c => c

/-- Run `main`'s loop from a phase and cache over a list of user inputs. -/
def runFrom (g : Gateway) (urls : List (String × String)) :
    Phase → Cache → List String → Outcome
  | ph, c, [] => .pending ph c
  | ph, c, i :: is =>
    match step g urls ph c i with
    | .next ph' c' _ => runFrom g urls ph' c' is
    | .exited s c' _ => .exited s c'
    | .crashed e c' _ => .crashed e c'

/-- Growth order on a site record's optional `nearby` list: it can be
attached where absent, an empty attached list can only grow, and a non-empty
attached list never changes. -/
def nearbyLe (a b : Option (List Place)) : Prop :=
  match a, b with
  | none, _ => True
  | some _, none => False
  | some l, some l' => l = [] ∨ l = l'

/-- Growth order on site records: the five scraped fields never change and
the `nearby` sub-structure only grows. -/
def siteLe (a b : SiteEntry) : Prop :=
  a.category = b.category ∧ a.name = b.name ∧ a.address = b.address ∧
    a.zipcode = b.zipcode ∧ a.phone = b.phone ∧ nearbyLe a.nearby b.nearby

/-- Growth order on a state's optional cache entry: it can be created where
absent, an empty entry can only grow, and a non-empty entry keeps its length
and grows record-wise. -/
def sitesLe (a b : Option (List SiteEntry)) : Prop :=
  match a, b with
  | none, _ => True
  | some _, none => False
  | some l, some l' => l = [] ∨ List.Forall₂ siteLe l l'

/-- Growth order on whole cache stores, state key by state key. -/
def cacheLe (c c' : Cache) : Prop :=
  ∀ k, sitesLe (alookup c.states k) (alookup c'.states k)

/-- The state-page url of Michigan, as built by `build_state_url_dict` from
the anchor `href='/state/mi/index.htm'`. -/
def siteUrlMI : String := "https://www.nps.gov/state/mi/index.htm"

/-- A one-state `state_urls` mapping. -/
def urlsW : List (String × String) := [("michigan", siteUrlMI)]

/-- A concrete national-site page with every element present. -/
def pageW : SitePage :=
  { heroTitle := ["Isle Royale"], heroDesignation := ["National Park"],
    addressLocality := ["Houghton"], region := ["MI"],
    postalCode := ["49931 "], tel := ["\n(906) 482-0984"] }

/-- A concrete raw MapQuest match. -/
def rawPlaceW : RawPlace :=
  { name := "Quincy Mine", group_sic_code_name := "", address := "", city := "" }

/-- A benign gateway: one state anchor on the home page, one site per state,
one raw nearby match. -/
def gW : Gateway :=
  { homePage := .ok { hrefs := [{ text := "Michigan", href := "/state/mi/index.htm" }] }
    statePage := fun _ => .ok ["/isro/"]
    sitePage := fun _ => .ok pageW
    nearbyResp := fun _ => .ok [rawPlaceW] }

/-- A gateway whose every remote call fails with a network error. -/
def gFail : Gateway :=
  { homePage := .error ()
    statePage := fun _ => .error ()
    sitePage := fun _ => .error ()
    nearbyResp := fun _ => .error () }

/-- A gateway whose home page carries no state anchors at all. -/
def gEmptyHome : Gateway :=
  { homePage := .ok { hrefs := [] }
    statePage := fun _ => .ok []
    sitePage := fun _ => .ok pageW
    nearbyResp := fun _ => .ok [] }

/-- The cached site record for Isle Royale (no nearby list yet). -/
def siteW : SiteEntry :=
  { category := "National Park", name := "Isle Royale", address := "Houghton, MI",
    zipcode := "49931", phone := "(906) 482-0984", nearby := none }

/-- The empty cache of a first run. -/
def cEmpty : Cache := { state_url := none, states := [] }

/-- A cache holding only the state index. -/
def cUrls : Cache := { state_url := some urlsW, states := [] }

/-- A cache holding the state index and Michigan's site list. -/
def cW : Cache := { state_url := some urlsW, states := [("michigan", [siteW])] }

/-- A cache whose Michigan site carries an attached but empty nearby list. -/
def cNearbyEmpty : Cache :=
  { state_url := some urlsW, states := [("michigan", [{ siteW with nearby := some [] }])] }

def placeW : Place :=
  { name := "Quincy Mine", category := "no category", address := "no address", city := "no city" }

def cNearbyFull : Cache :=
  { state_url := some urlsW, states := [("michigan", [{ siteW with nearby := some [placeW] }])] }

def pageNoAddr : SitePage :=
  { heroTitle := ["Fort X"], heroDesignation := ["National Monument"],
    addressLocality := [], region := [], postalCode := [], tel := ["555"] }

def gNoAddr : Gateway :=
  { homePage := .ok { hrefs := [] }
    statePage := fun _ => .ok []
    sitePage := fun _ => .ok pageNoAddr
    nearbyResp := fun _ => .ok [] }

def pageNoTel : SitePage :=
  { heroTitle := ["Fort X"], heroDesignation := ["National Monument"],
    addressLocality := ["Town"], region := ["MI"], postalCode := ["49884"], tel := [] }

def gNoTel : Gateway :=
  { homePage := .ok { hrefs := [] }
    statePage := fun _ => .ok []
    sitePage := fun _ => .ok pageNoTel
    nearbyResp := fun _ => .ok [] }

def cStatesEmptyEntry : Cache :=
  { state_url := some urlsW, states := [("michigan", [])] }

/-- Lookup after an update at the same key. -/
theorem alookup_aset_self {α : Type} (l : List (String × α)) (k : String) (v : α) :
    alookup (aset l k v) k = some v := by
  induction l with
  | nil => simp [aset, alookup]
  | cons p t ih =>
    obtain ⟨k', v'⟩ := p
    by_cases h : k' = k
    · simp [aset, alookup, h]
    · simp [aset, alookup, h, ih]

/-- Lookup after an update at a different key. -/
theorem alookup_aset_ne {α : Type} (l : List (String × α)) (k k' : String) (v : α)
    (h : k' ≠ k) : alookup (aset l k v) k' = alookup l k' := by
  induction l with
  | nil =>
    have hne : ¬(k = k') := fun hh => h hh.symm
    simp [aset, alookup, hne]
  | cons p t ih =>
    obtain ⟨k0, v0⟩ := p
    by_cases h0 : k0 = k
    · subst h0
      have hne : ¬(k0 = k') := fun hh => h hh.symm
      simp [aset, alookup, hne]
    · simp only [aset, if_neg h0, alookup]
      by_cases h1 : k0 = k'
      · simp [h1]
      · simp [h1, ih]

/-- A key present in an updated association list was present before or is the
updated key. -/
theorem mem_aset {α : Type} (l : List (String × α)) (k k' : String) (v v' : α)
    (hm : (k, v) ∈ aset l k' v') : (k, v) ∈ l ∨ k = k' := by
  induction l with
  | nil =>
    simp only [aset, List.mem_singleton, Prod.mk.injEq] at hm
    exact Or.inr hm.1
  | cons p t ih =>
    obtain ⟨k0, v0⟩ := p
    by_cases h0 : k0 = k'
    · subst h0
      simp only [aset, if_pos rfl, ite_true, List.mem_cons, Prod.mk.injEq] at hm
      rcases hm with hm | hm
      · exact Or.inr hm.1
      · exact Or.inl (List.mem_cons_of_mem _ hm)
    · simp only [aset, if_neg h0, List.mem_cons] at hm
      rcases hm with hm | hm
      · exact Or.inl (by simp [hm])
      · rcases ih hm with hh | hh
        · exact Or.inl (List.mem_cons_of_mem _ hh)
        · exact Or.inr hh

theorem pyTruthy_none {α : Type} : pyTruthy (none : Option (List α)) = false := rfl

theorem pyTruthy_some_nil {α : Type} : pyTruthy (some ([] : List α)) = false := rfl

theorem pyTruthy_some_cons {α : Type} (a : α) (t : List α) :
    pyTruthy (some (a :: t)) = true := rfl

/-- `Nat.digitChar` of a digit is a decimal digit character. -/
theorem digitChar_isDigit {m : Nat} (h : m < 10) : (Nat.digitChar m).isDigit = true := by
  interval_cases m <;> decide

/-- Every character produced by `digitsRev` is a decimal digit. -/
theorem digitsRev_isDigit : ∀ (fuel n : Nat) (c : Char), c ∈ digitsRev fuel n → c.isDigit = true := by
  intro fuel
  induction fuel with
  | zero => intro n c h; simp [digitsRev] at h
  | succ f ih =>
    intro n c h
    cases n with
    | zero => simp [digitsRev] at h
    | succ m =>
      simp only [digitsRev, List.mem_cons] at h
      rcases h with h | h
      · subst h; exact digitChar_isDigit (Nat.mod_lt _ (by omega))
      · exact ih _ _ h

/-- `str(n)` of a positive number is never the word `exit`. -/
theorem pyStr_ne_exit (n : Nat) : pyStr (n + 1) ≠ "exit" := by
  intro h
  have hd : (pyStr (n + 1)).data = "exit".data := by rw [h]
  rw [pyStr, if_neg (Nat.succ_ne_zero n)] at hd
  have he : 'e' ∈ (digitsRev (n + 1) (n + 1)).reverse := by
    rw [show (String.mk ((digitsRev (n + 1) (n + 1)).reverse)).data
          = (digitsRev (n + 1) (n + 1)).reverse from rfl] at hd
    rw [hd]
    decide
  have := digitsRev_isDigit (n + 1) (n + 1) 'e' (List.mem_reverse.mp he)
  simp at this

/-- The inner-loop numeric check never matches the input `exit`. -/
theorem find_exit_none (len : Nat) :
    (List.range len).find? (fun i => "exit" == pyStr (i + 1)) = none := by
  rw [List.find?_eq_none]
  intro i _
  simp only [beq_iff_eq]
  intro h
  exact pyStr_ne_exit i h.symm

theorem nearbyLe_refl (a : Option (List Place)) : nearbyLe a a := by
  cases a with
  | none => trivial
  | some l => exact Or.inr rfl

theorem siteLe_refl (a : SiteEntry) : siteLe a a :=
  ⟨rfl, rfl, rfl, rfl, rfl, nearbyLe_refl a.nearby⟩

theorem forall2_siteLe_refl (l : List SiteEntry) : List.Forall₂ siteLe l l := by
  induction l with
  | nil => exact List.Forall₂.nil
  | cons a t ih => exact List.Forall₂.cons (siteLe_refl a) ih

theorem sitesLe_refl (a : Option (List SiteEntry)) : sitesLe a a := by
  cases a with
  | none => trivial
  | some l => exact Or.inr (forall2_siteLe_refl l)

theorem cacheLe_refl (c : Cache) : cacheLe c c := fun _ => sitesLe_refl _

theorem nearbyLe_trans {a b c : Option (List Place)}
    (h1 : nearbyLe a b) (h2 : nearbyLe b c) : nearbyLe a c := by
  cases a with
  | none => trivial
  | some l =>
    cases b with
    | none => exact absurd h1 (by simp [nearbyLe])
    | some l' =>
      cases c with
      | none => exact absurd h2 (by simp [nearbyLe])
      | some l'' =>
        rcases h1 with h1 | h1
        · exact Or.inl h1
        · subst h1
          exact h2

theorem siteLe_trans {a b c : SiteEntry} (h1 : siteLe a b) (h2 : siteLe b c) : siteLe a c := by
  obtain ⟨e1, e2, e3, e4, e5, e6⟩ := h1
  obtain ⟨f1, f2, f3, f4, f5, f6⟩ := h2
  exact ⟨e1.trans f1, e2.trans f2, e3.trans f3, e4.trans f4, e5.trans f5, nearbyLe_trans e6 f6⟩

theorem forall2_siteLe_trans : ∀ {a b c : List SiteEntry},
    List.Forall₂ siteLe a b → List.Forall₂ siteLe b c → List.Forall₂ siteLe a c := by
  intro a b c h1 h2
  induction h1 generalizing c with
  | nil =>
    cases h2
    exact List.Forall₂.nil
  | cons hab t ih =>
    cases h2 with
    | cons hbc t2 => exact List.Forall₂.cons (siteLe_trans hab hbc) (ih t2)

theorem sitesLe_trans {a b c : Option (List SiteEntry)}
    (h1 : sitesLe a b) (h2 : sitesLe b c) : sitesLe a c := by
  cases a with
  | none => trivial
  | some l =>
    cases b with
    | none => exact absurd h1 (by simp [sitesLe])
    | some l' =>
      cases c with
      | none => exact absurd h2 (by simp [sitesLe])
      | some l'' =>
        rcases h1 with h1 | h1
        · exact Or.inl h1
        · rcases h2 with h2 | h2
          · subst h2
            cases h1
            exact Or.inl rfl
          · exact Or.inr (forall2_siteLe_trans h1 h2)

theorem cacheLe_trans {a b c : Cache} (h1 : cacheLe a b) (h2 : cacheLe b c) : cacheLe a c :=
  fun k => sitesLe_trans (h1 k) (h2 k)

/-- Replacing one record of a list by a record it grows into grows the whole
list record-wise. -/
theorem forall2_siteLe_set : ∀ (l : List SiteEntry) (i : Nat) (x : SiteEntry),
    (∀ se, l[i]? = some se → siteLe se x) → List.Forall₂ siteLe l (l.set i x) := by
  intro l
  induction l with
  | nil => intro i x _; exact List.Forall₂.nil
  | cons a t ih =>
    intro i x h
    cases i with
    | zero =>
      exact List.Forall₂.cons (h a (by simp)) (forall2_siteLe_refl t)
    | succ n =>
      exact List.Forall₂.cons (siteLe_refl a) (ih n x (fun se hse => h se (by simpa using hse)))

/-- Storing a freshly fetched list under a key whose entry was absent or
empty grows the cache. -/
theorem cacheLe_aset_fresh (c : Cache) (k : String) (sl : List SiteEntry)
    (h : pyTruthy (alookup c.states k) = false) :
    cacheLe c { c with states := aset c.states k sl } := by
  intro k'
  by_cases hk : k' = k
  · subst hk
    rw [show ({ c with states := aset c.states k' sl } : Cache).states
          = aset c.states k' sl from rfl, alookup_aset_self]
    cases hl : alookup c.states k' with
    | none => trivial
    | some l =>
      cases l with
      | nil => exact Or.inl rfl
      | cons a t => rw [hl] at h; simp [pyTruthy] at h
  · rw [show ({ c with states := aset c.states k sl } : Cache).states
          = aset c.states k sl from rfl, alookup_aset_ne _ _ _ _ hk]
    exact sitesLe_refl _

/-- Attaching a nearby list to one record of a state entry grows the
cache. -/
theorem cacheLe_aset_nearby (c : Cache) (st : String) (sites : List SiteEntry)
    (i : Nat) (se : SiteEntry) (places : List Place)
    (hl : alookup c.states st = some sites) (hi : sites[i]? = some se)
    (hn : se.nearby = none) :
    cacheLe c { c with
      states := aset c.states st (sites.set i { se with nearby := some places }) } := by
  intro k'
  by_cases hk : k' = st
  · subst hk
    rw [show ({ c with
          states := aset c.states k' (sites.set i { se with nearby := some places }) } : Cache).states
          = aset c.states k' (sites.set i { se with nearby := some places }) from rfl,
        alookup_aset_self, hl]
    refine Or.inr (forall2_siteLe_set sites i _ ?_)
    intro se0 hse0
    rw [hi] at hse0
    cases hse0
    exact ⟨rfl, rfl, rfl, rfl, rfl, by rw [hn]; trivial⟩
  · rw [show ({ c with
          states := aset c.states st (sites.set i { se with nearby := some places }) } : Cache).states
          = aset c.states st (sites.set i { se with nearby := some places }) from rfl,
        alookup_aset_ne _ _ _ _ hk]
    exact sitesLe_refl _

/-- One outer-loop step only grows the cache. -/
theorem stepChoosing_cacheLe (g : Gateway) (urls : List (String × String)) (c : Cache)
    (raw : String) : cacheLe c (StepResult.cache (stepChoosing g urls c raw)) := by
  unfold stepChoosing
  dsimp only
  split
  · exact cacheLe_refl c
  · split
    · exact cacheLe_refl c
    · split
      · exact cacheLe_refl c
      · rename_i htr
        split
        · exact cacheLe_refl c
        · split
          · exact cacheLe_refl c
          · exact cacheLe_aset_fresh c _ _ (by simpa using htr)

/-- `NationalSite(**d)` succeeds exactly on records without a `nearby` key. -/
theorem nationalSiteOfDict_ok_nearby {se : SiteEntry} {ns : NationalSite}
    (h : nationalSiteOfDict se = .ok ns) : se.nearby = none := by
  cases hn : se.nearby with
  | none => rfl
  | some l => rw [nationalSiteOfDict, hn] at h; cases h

/-- One inner-loop step only grows the cache. -/
theorem stepViewing_cacheLe (g : Gateway) (st : String) (c : Cache) (raw : String) :
    cacheLe c (StepResult.cache (stepViewing g st c raw)) := by
  unfold stepViewing
  dsimp only
  split
  · rename_i i hfind
    split
    · exact cacheLe_refl c
    · rename_i se hse
      split
      · exact cacheLe_refl c
      · split
        · exact cacheLe_refl c
        · rename_i ns hns
          split
          · exact cacheLe_refl c
          · rename_i raws hraws
            have hn : se.nearby = none := nationalSiteOfDict_ok_nearby hns
            cases hl : alookup c.states st with
            | none => rw [hl] at hse; simp at hse
            | some l =>
              rw [hl] at hse
              exact cacheLe_aset_nearby c st l i se _ hl (by simpa using hse) hn
  · split
    · exact cacheLe_refl c
    · split
      · exact cacheLe_refl c
      · exact cacheLe_refl c

/-- Any single step of the session only grows the cache. -/
theorem step_cacheLe (g : Gateway) (urls : List (String × String)) (ph : Phase) (c : Cache)
    (raw : String) : cacheLe c (StepResult.cache (step g urls ph c raw)) := by
  cases ph with
  | choosing => exact stepChoosing_cacheLe g urls c raw
  | viewing st => exact stepViewing_cacheLe g st c raw

/-- A whole session run only grows the cache: entries are only added or
enriched record-wise, never deleted, shrunk or altered. -/
theorem runFrom_cacheLe (g : Gateway) (urls : List (String × String)) :
    ∀ (ins : List String) (ph : Phase) (c : Cache),
      cacheLe c (Outcome.cache (runFrom g urls ph c ins)) := by
  intro ins
  induction ins with
  | nil => intro ph c; exact cacheLe_refl c
  | cons i is ih =>
    intro ph c
    unfold runFrom
    cases hs : step g urls ph c i with
    | next ph' c' evs =>
      have h1 : cacheLe c c' := by
        have := step_cacheLe g urls ph c i
        rw [hs] at this
        exact this
      exact cacheLe_trans h1 (ih ph' c')
    | exited s c' evs =>
      have := step_cacheLe g urls ph c i
      rw [hs] at this
      exact this
    | crashed e c' evs =>
      have := step_cacheLe g urls ph c i
      rw [hs] at this
      exact this

/-- Every print emitted inside `get_sites_for_state` is a `Fetching` line. -/
theorem fetchSites_evs (g : Gateway) :
    ∀ (us : List String) (e : Ev), e ∈ (fetchSites g us).1 → e = .fetching := by
  intro us
  induction us with
  | nil => intro e h; simp [fetchSites] at h
  | cons u t ih =>
    intro e h
    rw [fetchSites] at h
    cases hg : get_site_instance g u with
    | error err => rw [hg] at h; simp at h; exact h
    | ok s =>
      rw [hg] at h
      simp only [List.mem_cons] at h
      rcases h with h | h
      · exact h
      · exact ih e h

theorem get_sites_for_state_evs (g : Gateway) (u : String) :
    ∀ e ∈ (get_sites_for_state g u).1, e = .fetching := by
  intro e h
  rw [get_sites_for_state] at h
  cases hg : g.statePage u with
  | error err => rw [hg] at h; simp at h
  | ok divs => rw [hg] at h; exact fetchSites_evs g _ e h

theorem buildStateDict_keys (page : HomePage) (k : String) (v : String)
    (h : (k, v) ∈ buildStateDict page) : ∃ a ∈ page.hrefs, k = pyLower a.text := by
  have gen : ∀ (l : List Anchor) (init : List (String × String)),
      (k, v) ∈ l.foldl
        (fun df a => aset df (pyLower a.text) (pyRstrip homeUrl "/index.htm" ++ pyStrip a.href " "))
        init →
      (k, v) ∈ init ∨ ∃ a ∈ l, k = pyLower a.text := by
    intro l
    induction l with
    | nil => intro init hh; exact Or.inl hh
    | cons a t ih =>
      intro init hh
      rcases ih _ hh with hh' | hh'
      · rcases mem_aset _ _ _ _ _ hh' with hh'' | hh''
        · exact Or.inl hh''
        · exact Or.inr ⟨a, List.mem_cons_self a t, hh''⟩
      · obtain ⟨a', ha', hk⟩ := hh'
        exact Or.inr ⟨a', List.mem_cons_of_mem _ ha', hk⟩
  rcases gen page.hrefs [] h with hh | hh
  · cases hh
  · exact hh

/-- C1 (amended): when a gateway call fails -- the sites-list fetch on a
state cache miss, or the nearby-places fetch on a nearby cache miss --
`main` catches nothing: the exception propagates and the session crashes
rather than surfacing a retryable message and re-prompting.  The Cache Store
however is not corrupted: the crash result carries the cache unchanged,
because the script writes an entry only after the whole fetch succeeded. -/
theorem c1_gateway_failure_crashes :
    (∀ (g : Gateway) (urls : List (String × String)) (c : Cache) (raw url : String)
        (e : PyErr) (evs : List Ev),
      alookup urls (pyLower raw) = some url → pyLower raw ≠ "exit" →
      pyTruthy (alookup c.states (pyLower raw)) = false →
      get_sites_for_state g url = (evs, .error e) →
      step g urls .choosing c raw = .crashed e c evs)
  ∧ (∀ (g : Gateway) (urls : List (String × String)) (st : String) (c : Cache) (raw : String)
        (sites : List SiteEntry) (i : Nat) (se : SiteEntry),
      alookup c.states st = some sites →
      (List.range sites.length).find? (fun j => raw == pyStr (j + 1)) = some i →
      sites[i]? = some se → se.nearby = none →
      g.nearbyResp (mkNearbyRequest se.zipcode) = .error () →
      step g urls (.viewing st) c raw = .crashed .network c [.fetching]) := by
  constructor
  · intro g urls c raw url e evs h1 h2 h3 h4
    unfold step stepChoosing
    dsimp only
    rw [if_neg (fun hh : _ ∧ _ => by rw [h1] at hh; cases hh.1), if_neg h2, h3]
    simp only [Bool.false_eq_true, if_false]
    rw [h1]
    dsimp only
    rw [h4]
  · intro g urls st c raw sites i se hl hfind hi hn hresp
    unfold step stepViewing
    dsimp only
    rw [hl]
    simp only [Option.getD_some] at hfind ⊢
    rw [hfind]
    dsimp only
    rw [hi]
    try dsimp only
    rw [hn]
    simp only [pyTruthy_none, Bool.false_eq_true, if_false, nationalSiteOfDict, hn,
      get_nearby_places]
    try dsimp only
    rw [hresp]

/-- C1, counterexample to the claim as stated: with a gateway whose
state-page fetch fails, entering the valid state name `michigan` at the
state prompt crashes the session with the propagated network error; the
result is not a `next` step, so no retryable failure message is shown and
the session does not remain in its navigation state. -/
theorem c1_counterexample :
    step gFail urlsW .choosing cEmpty "michigan" = .crashed .network cEmpty [] ∧
    (∀ (ph' : Phase) (c' : Cache) (evs : List Ev),
      step gFail urlsW .choosing cEmpty "michigan" ≠ .next ph' c' evs) := by
  refine ⟨by decide, ?_⟩
  intro ph' c' evs h
  rw [show step gFail urlsW .choosing cEmpty "michigan" = .crashed .network cEmpty []
        from by decide] at h
  exact StepResult.noConfusion h

/-- C1, witness: the amended theorem applied to a concrete failing gateway,
for both the sites-list fetch and the nearby-places fetch. -/
theorem c1_witness :
    step gFail urlsW .choosing cEmpty "michigan" = .crashed .network cEmpty [] ∧
    step gFail urlsW (.viewing "michigan") cW "1" = .crashed .network cW [.fetching] :=
  ⟨c1_gateway_failure_crashes.1 gFail urlsW cEmpty "michigan" siteUrlMI .network []
     (by decide) (by decide) (by decide) (by rfl),
   c1_gateway_failure_crashes.2 gFail urlsW "michigan" cW "1" [siteW] 0 siteW
     (by decide) (by decide) (by decide) (by decide) (by rfl)⟩

/-- C2 (amended): provided the mapping produced by a `build_state_url_dict`
call is non-empty, every subsequent call in the same session returns the
identical mapping and cache and performs no gateway fetch: the second
result is the same for every gateway and prints only `Using cache`. -/
theorem c2_cached_index_nonempty (g : Gateway) (c : Cache) (d : List (String × String))
    (c' : Cache) (evs : List Ev)
    (h : build_state_url_dict g c = .ok (d, c', evs)) (hd : d ≠ []) :
    ∀ g2 : Gateway, build_state_url_dict g2 c' = .ok (d, c', [.usingCache]) := by
  intro g2
  unfold build_state_url_dict at h
  split at h
  · rename_i htr
    simp only [Except.ok.injEq, Prod.mk.injEq] at h
    obtain ⟨h1, h2, _⟩ := h
    subst h2
    unfold build_state_url_dict
    rw [if_pos htr, h1]
  · rename_i htr
    split at h
    · cases h
    · rename_i page hpage
      simp only [Except.ok.injEq, Prod.mk.injEq] at h
      obtain ⟨h1, h2, _⟩ := h
      subst h2
      cases hdc : d with
      | nil => exact absurd hdc hd
      | cons a t =>
        subst h1
        unfold build_state_url_dict
        rw [hdc]
        simp only [pyTruthy_some_cons, if_true]
        rw [← hdc]
        rfl

/-- C2, counterexample to the claim as stated: when the home page carries no
state anchors, the first call fetches and stores the empty mapping under
`state_url`, and the second call -- the stored value being falsy -- fetches
again (`Fetching` print) instead of returning the cached mapping without
fetching, so two calls perform two gateway fetches. -/
theorem c2_counterexample :
    build_state_url_dict gEmptyHome cEmpty
      = .ok ([], { cEmpty with state_url := some [] }, [.fetching]) ∧
    build_state_url_dict gEmptyHome { cEmpty with state_url := some [] }
      = .ok ([], { cEmpty with state_url := some [] }, [.fetching]) :=
  ⟨rfl, rfl⟩

/-- C2, witness: the amended theorem applied to the concrete one-state home
page, whose first call stores a non-empty mapping. -/
theorem c2_witness :
    build_state_url_dict gW cUrls = .ok (urlsW, cUrls, [.usingCache]) :=
  c2_cached_index_nonempty gW cEmpty urlsW cUrls [.fetching] (by rfl) (by decide) gW

/-- C3: over any run of the session the cache only grows, state key by state
key (`cacheLe`): entries are only added or enriched record-wise by nearby
attachment, never deleted, shrunk or altered.  A truthy state cache hit
returns the stored entry verbatim -- including previously attached `nearby`
sub-structures -- with the cache untouched, and a truthy nearby cache hit
displays the stored nearby list verbatim. -/
theorem c3_monotone_verbatim :
    (∀ (g : Gateway) (urls : List (String × String)) (ph : Phase) (c : Cache)
        (ins : List String),
      cacheLe c (Outcome.cache (runFrom g urls ph c ins)))
  ∧ (∀ (g : Gateway) (urls : List (String × String)) (c : Cache) (raw url : String)
        (sites : List SiteEntry),
      alookup urls (pyLower raw) = some url → pyLower raw ≠ "exit" →
      alookup c.states (pyLower raw) = some sites → sites ≠ [] →
      step g urls .choosing c raw =
        .next (.viewing (pyLower raw)) c
          (sites.map (fun _ => Ev.usingCache) ++ [.displaySites (pyLower raw) sites]))
  ∧ (∀ (g : Gateway) (urls : List (String × String)) (st : String) (c : Cache) (raw : String)
        (sites : List SiteEntry) (i : Nat) (se : SiteEntry) (ps : List Place),
      alookup c.states st = some sites →
      (List.range sites.length).find? (fun j => raw == pyStr (j + 1)) = some i →
      sites[i]? = some se → se.nearby = some ps → ps ≠ [] →
      step g urls (.viewing st) c raw =
        .next (.viewing st) c [.usingCache, .displayNearby ps]) := by
  refine ⟨fun g urls ph c ins => runFrom_cacheLe g urls ins ph c, ?_, ?_⟩
  · intro g urls c raw url sites h1 h2 h3 h4
    unfold step stepChoosing
    dsimp only
    rw [if_neg (fun hh : _ ∧ _ => by rw [h1] at hh; cases hh.1), if_neg h2, h3]
    cases sites with
    | nil => exact absurd rfl h4
    | cons a t => simp only [pyTruthy_some_cons, if_true, Option.getD_some]
  · intro g urls st c raw sites i se ps hl hfind hi hn hps
    unfold step stepViewing
    dsimp only
    rw [hl]
    simp only [Option.getD_some] at hfind ⊢
    rw [hfind]
    dsimp only
    rw [hi]
    try dsimp only
    rw [hn]
    cases ps with
    | nil => exact absurd rfl hps
    | cons p q => simp only [pyTruthy_some_cons, if_true, Option.getD_some]

/-- C3, witness: monotonicity over a concrete run, a concrete state cache
hit served verbatim, and a concrete nearby cache hit served verbatim. -/
theorem c3_witness :
    cacheLe cW (Outcome.cache (runFrom gW urlsW .choosing cW ["michigan", "1", "exit"])) ∧
    step gW urlsW .choosing cW "Michigan"
      = .next (.viewing (pyLower "Michigan")) cW
          (([siteW]).map (fun _ => Ev.usingCache) ++ [.displaySites (pyLower "Michigan") [siteW]]) ∧
    step gW urlsW (.viewing "michigan") cNearbyFull "1"
      = .next (.viewing "michigan") cNearbyFull [.usingCache, .displayNearby [placeW]] :=
  ⟨c3_monotone_verbatim.1 gW urlsW .choosing cW ["michigan", "1", "exit"],
   c3_monotone_verbatim.2.1 gW urlsW cW "Michigan" siteUrlMI [siteW]
     (by decide) (by decide) (by decide) (by decide),
   c3_monotone_verbatim.2.2 gW urlsW "michigan" cNearbyFull "1"
     [{ siteW with nearby := some [placeW] }] 0 { siteW with nearby := some [placeW] } [placeW]
     (by decide) (by decide) (by decide) (by decide) (by decide)⟩

/-- C4 (amended): state-name keys are canonicalized identically on read and
write by lower-casing only, with no whitespace trimming: the outer step
depends on its input only through `pyLower`, so inputs differing only in
letter case behave identically, and every key written while building the
state index is the lower-cased (untrimmed) anchor text. -/
theorem c4_lowercase_only_keys :
    (∀ (g : Gateway) (urls : List (String × String)) (c : Cache) (r1 r2 : String),
      pyLower r1 = pyLower r2 →
      step g urls .choosing c r1 = step g urls .choosing c r2)
  ∧ (∀ (page : HomePage) (k v : String),
      (k, v) ∈ buildStateDict page → ∃ a ∈ page.hrefs, k = pyLower a.text) := by
  constructor
  · intro g urls c r1 r2 h
    unfold step stepChoosing
    rw [h]
  · exact buildStateDict_keys

/-- C4, counterexample to the claim as stated: `Michigan` (letter-case
difference only) hits the cached Michigan entry, while `michigan ` (a
trailing space only) is rejected as an unknown state name -- so lookups
differing only in surrounding whitespace do not address the identical cache
key and do not return identical results. -/
theorem c4_counterexample :
    step gW urlsW .choosing cW "Michigan"
      = .next (.viewing "michigan") cW [.usingCache, .displaySites "michigan" [siteW]] ∧
    step gW urlsW .choosing cW "michigan "
      = .next .choosing cW [.errorStateName] ∧
    step gW urlsW .choosing cW "Michigan" ≠ step gW urlsW .choosing cW "michigan " := by
  exact ⟨by decide, by decide, by decide⟩

/-- C4, witness: case-insensitivity of the outer step at a concrete input
pair, and the lower-cased write-side key of a concrete anchor. -/
theorem c4_witness :
    step gW urlsW .choosing cW "MICHIGAN" = step gW urlsW .choosing cW "michigan" ∧
    (∃ a ∈ ({ hrefs := [{ text := "Michigan", href := "/state/mi/index.htm" }] } : HomePage).hrefs,
      "michigan" = pyLower a.text) :=
  ⟨c4_lowercase_only_keys.1 gW urlsW cW "MICHIGAN" "michigan" (by decide),
   c4_lowercase_only_keys.2 { hrefs := [{ text := "Michigan", href := "/state/mi/index.htm" }] }
     "michigan" siteUrlMI (by decide)⟩

/-- C5: a site page whose address-locality (or postal-code) element is
absent yields a Site Record whose address (resp. zipcode) field is the
empty string, while a raw nearby match whose category, address or city is
the empty string normalizes to the explicit placeholders `no category`,
`no address`, `no city`. -/
theorem c5_empty_field_fallbacks :
    (∀ (g : Gateway) (url : String) (page : SitePage) (nm ds ph : String)
        (t1 t2 t3 : List String),
      g.sitePage url = .ok page →
      page.heroTitle = nm :: t1 → page.heroDesignation = ds :: t2 → page.tel = ph :: t3 →
      ∃ s, get_site_instance g url = .ok s ∧
        (page.addressLocality = [] → s.address = "") ∧
        (page.postalCode = [] → s.zipcode = ""))
  ∧ (∀ p : RawPlace,
      (p.group_sic_code_name = "" → (normalizePlace p).category = "no category") ∧
      (p.address = "" → (normalizePlace p).address = "no address") ∧
      (p.city = "" → (normalizePlace p).city = "no city")) := by
  constructor
  · intro g url page nm ds ph t1 t2 t3 hg h1 h2 h3
    refine ⟨{ category := ds, name := nm,
              address := match page.addressLocality, page.region with
                         | l :: _, r :: _ => l ++ ", " ++ r
                         | _, _ => ""
              zipcode := match page.postalCode with
                         | z :: _ => pyRstrip z " "
                         | [] => ""
              phone := pyStrip ph "\n" }, ?_, ?_, ?_⟩
    · simp only [get_site_instance, hg, h1, h2, h3]
    · intro ha
      simp only [ha]
    · intro hz
      simp only [hz]
  · intro p
    refine ⟨fun h => ?_, fun h => ?_, fun h => ?_⟩ <;> simp [normalizePlace, h]

/-- C5, witness: both fallback rules at literal empty-field inputs. -/
theorem c5_witness :
    (∃ s, get_site_instance gNoAddr "u" = .ok s ∧
       (pageNoAddr.addressLocality = [] → s.address = "") ∧
       (pageNoAddr.postalCode = [] → s.zipcode = "")) ∧
    ((rawPlaceW.group_sic_code_name = "" → (normalizePlace rawPlaceW).category = "no category") ∧
     (rawPlaceW.address = "" → (normalizePlace rawPlaceW).address = "no address") ∧
     (rawPlaceW.city = "" → (normalizePlace rawPlaceW).city = "no city")) :=
  ⟨c5_empty_field_fallbacks.1 gNoAddr "u" pageNoAddr "Fort X" "National Monument" "555"
     [] [] [] (by rfl) (by rfl) (by rfl) (by rfl),
   c5_empty_field_fallbacks.2 rawPlaceW⟩

/-- C6: entering `exit` at the state prompt or at the site-list prompt
saves the whole cache exactly once and terminates with exit status 0;
conversely, every terminating step has status 0 and exactly the single
flush event of the whole store, and no non-terminating step ever emits a
flush -- so no normal exit path skips the flush. -/
theorem c6_exit_flush :
    (∀ (g : Gateway) (urls : List (String × String)) (c : Cache),
      step g urls .choosing c "exit" = .exited 0 c [.flushCache c])
  ∧ (∀ (g : Gateway) (urls : List (String × String)) (st : String) (c : Cache),
      step g urls (.viewing st) c "exit" = .exited 0 c [.flushCache c])
  ∧ (∀ (g : Gateway) (urls : List (String × String)) (ph : Phase) (c : Cache) (raw : String)
        (s : Nat) (c' : Cache) (evs : List Ev),
      step g urls ph c raw = .exited s c' evs →
      s = 0 ∧ c' = c ∧ evs = [.flushCache c])
  ∧ (∀ (g : Gateway) (urls : List (String × String)) (ph : Phase) (c : Cache) (raw : String)
        (ph' : Phase) (c' : Cache) (evs : List Ev),
      step g urls ph c raw = .next ph' c' evs →
      ∀ c0, Ev.flushCache c0 ∉ evs) := by
  refine ⟨?_, ?_, ?_, ?_⟩
  · intro g urls c
    unfold step stepChoosing
    dsimp only
    rw [show pyLower "exit" = "exit" from rfl,
        if_neg (fun hh : _ ∧ ¬("exit" = "exit") => hh.2 rfl), if_pos rfl]
  · intro g urls st c
    unfold step stepViewing
    dsimp only
    rw [find_exit_none, if_pos rfl]
  · intro g urls ph c raw s c' evs h
    cases ph with
    | choosing =>
      unfold step stepChoosing at h
      dsimp only at h
      split at h
      · cases h
      · split at h
        · injection h with h1 h2 h3
          exact ⟨h1.symm, h2.symm, h3.symm⟩
        · split at h
          · cases h
          · split at h
            · cases h
            · split at h
              · cases h
              · cases h
    | viewing st =>
      unfold step stepViewing at h
      dsimp only at h
      split at h
      · split at h
        · cases h
        · split at h
          · cases h
          · split at h
            · cases h
            · split at h
              · cases h
              · cases h
      · split at h
        · injection h with h1 h2 h3
          exact ⟨h1.symm, h2.symm, h3.symm⟩
        · split at h
          · cases h
          · cases h
  · intro g urls ph c raw ph' c' evs h c0
    cases ph with
    | choosing =>
      unfold step stepChoosing at h
      dsimp only at h
      split at h
      · injection h with h1 h2 h3
        rw [← h3]
        simp
      · split at h
        · cases h
        · split at h
          · injection h with h1 h2 h3
            rw [← h3]
            intro hmem
            rcases List.mem_append.mp hmem with hm | hm
            · rcases List.mem_map.mp hm with ⟨x, _, hx⟩
              cases hx
            · simp at hm
          · split at h
            · cases h
            · rename_i state_url hurl
              split at h
              · cases h
              · rename_i evs0 fetched hfetch
                injection h with h1 h2 h3
                rw [← h3]
                intro hmem
                rcases List.mem_append.mp hmem with hm | hm
                · have := get_sites_for_state_evs g state_url (Ev.flushCache c0) (by rw [hfetch]; exact hm)
                  cases this
                · simp at hm
    | viewing st =>
      unfold step stepViewing at h
      dsimp only at h
      split at h
      · split at h
        · cases h
        · split at h
          · injection h with h1 h2 h3
            rw [← h3]
            simp
          · split at h
            · cases h
            · split at h
              · cases h
              · injection h with h1 h2 h3
                rw [← h3]
                simp
      · split at h
        · cases h
        · split at h
          · injection h with h1 h2 h3
            rw [← h3]
            simp
          · injection h with h1 h2 h3
            rw [← h3]
            simp

/-- C6, witness: the four parts of the exit-flush theorem at concrete
inputs. -/
theorem c6_witness :
    step gW urlsW .choosing cW "exit" = .exited 0 cW [.flushCache cW] ∧
    step gW urlsW (.viewing "michigan") cW "exit" = .exited 0 cW [.flushCache cW] ∧
    (0 = 0 ∧ cW = cW ∧ [Ev.flushCache cW] = [Ev.flushCache cW]) ∧
    (∀ c0, Ev.flushCache c0 ∉ [Ev.errorStateName]) :=
  ⟨c6_exit_flush.1 gW urlsW cW,
   c6_exit_flush.2.1 gW urlsW "michigan" cW,
   c6_exit_flush.2.2.1 gW urlsW .choosing cW "exit" 0 cW [Ev.flushCache cW] (by decide),
   c6_exit_flush.2.2.2 gW urlsW .choosing cW "atlantis" .choosing cW [Ev.errorStateName]
     (by decide)⟩

/-- C7: an input at the state prompt that is neither a known state name
after lower-casing nor `exit` produces exactly the validation-error print,
leaves the cache unchanged, stays at the state prompt, and performs no
gateway call -- the conclusion holds for every gateway, so the result does
not depend on it. -/
theorem c7_unknown_state_validation (g : Gateway) (urls : List (String × String)) (c : Cache)
    (raw : String) (h1 : alookup urls (pyLower raw) = none) (h2 : pyLower raw ≠ "exit") :
    step g urls .choosing c raw = .next .choosing c [.errorStateName] := by
  unfold step stepChoosing
  dsimp only
  rw [if_pos ⟨h1, h2⟩]

/-- C7, witness: the unknown name `atlantis` at the state prompt. -/
theorem c7_witness :
    step gW urlsW .choosing cW "atlantis" = .next .choosing cW [.errorStateName] :=
  c7_unknown_state_validation gW urlsW cW "atlantis" (by decide) (by decide)

/-- C8: on a nearby cache miss (record without a `nearby` key) with a valid
1-based selection, the step queries the nearby gateway with the addressed
record's zip code as origin and the fixed parameters radius 10,
maxMatches 10, ambiguities `ignore`, and attaches the normalized result
list to that record in place under `nearby`. -/
theorem c8_nearby_fetch (g : Gateway) (urls : List (String × String)) (st : String)
    (c : Cache) (raw : String) (sites : List SiteEntry) (i : Nat) (se : SiteEntry)
    (raws : List RawPlace)
    (hl : alookup c.states st = some sites)
    (hfind : (List.range sites.length).find? (fun j => raw == pyStr (j + 1)) = some i)
    (hi : sites[i]? = some se)
    (hn : se.nearby = none)
    (hresp : g.nearbyResp (mkNearbyRequest se.zipcode) = .ok raws) :
    step g urls (.viewing st) c raw =
      .next (.viewing st)
        { c with states := (aset c.states st
            (sites.set i { se with nearby := some (raws.map normalizePlace) })) }
        [.fetching, .displayNearby (raws.map normalizePlace)] ∧
    mkNearbyRequest se.zipcode =
      { origin := se.zipcode, radius := 10, maxMatches := 10, ambiguities := "ignore",
        outFormat := "json" } := by
  refine ⟨?_, rfl⟩
  unfold step stepViewing
  dsimp only
  rw [hl]
  simp only [Option.getD_some] at hfind ⊢
  rw [hfind]
  dsimp only
  rw [hi]
  try dsimp only
  rw [hn]
  simp only [pyTruthy_none, Bool.false_eq_true, if_false, nationalSiteOfDict, hn,
    get_nearby_places]
  try dsimp only
  rw [hresp]

/-- C8, witness: the nearby fetch-and-attach at a concrete site record. -/
theorem c8_witness :
    (step gW urlsW (.viewing "michigan") cW "1"
      = .next (.viewing "michigan")
          { cW with states := (aset cW.states "michigan"
              (([siteW]).set 0 { siteW with nearby := some ([rawPlaceW].map normalizePlace) })) }
          [.fetching, .displayNearby ([rawPlaceW].map normalizePlace)]) ∧
    mkNearbyRequest siteW.zipcode
      = { origin := siteW.zipcode, radius := 10, maxMatches := 10, ambiguities := "ignore",
          outFormat := "json" } :=
  c8_nearby_fetch gW urlsW "michigan" cW "1" [siteW] 0 siteW [rawPlaceW]
    (by decide) (by decide) (by decide) (by decide) (by rfl)

/-- C9: cache hits are decided by truthiness -- an empty `state_url`
mapping and an empty state entry are indeed treated as misses and fetched
again -- but on an empty attached `nearby` list the miss path crashes with
a `TypeError` (rebuilding `NationalSite(**record)` from a record that now
carries the extra `nearby` key) before any gateway call, instead of
re-invoking the gateway as the claim states. -/
theorem c9_truthiness_and_typeerror :
    build_state_url_dict gW { cEmpty with state_url := some [] }
      = .ok (urlsW, cUrls, [.fetching]) ∧
    step gW urlsW .choosing cStatesEmptyEntry "michigan"
      = .next (.viewing "michigan") cW [.fetching, .displaySites "michigan" [siteW]] ∧
    step gW urlsW (.viewing "michigan") cNearbyEmpty "1"
      = .crashed .typeErr cNearbyEmpty [.fetching] := by
  exact ⟨by rfl, by decide, by decide⟩

/-- C10: in site extraction only the address and postal-code lookups are
guarded with an empty-string fallback: a page whose hero-title,
hero-designation or telephone element is missing makes `get_site_instance`
raise an IndexError instead of producing a Site Record, while any page with
those three elements present yields a record. -/
theorem c10_unguarded_extraction :
    (∀ (g : Gateway) (url : String) (page : SitePage),
      g.sitePage url = .ok page → page.heroTitle = [] →
      get_site_instance g url = .error .indexErr)
  ∧ (∀ (g : Gateway) (url : String) (page : SitePage),
      g.sitePage url = .ok page → page.heroDesignation = [] →
      get_site_instance g url = .error .indexErr)
  ∧ (∀ (g : Gateway) (url : String) (page : SitePage),
      g.sitePage url = .ok page → page.tel = [] →
      get_site_instance g url = .error .indexErr)
  ∧ (∀ (g : Gateway) (url : String) (page : SitePage) (nm ds ph : String)
        (t1 t2 t3 : List String),
      g.sitePage url = .ok page →
      page.heroTitle = nm :: t1 → page.heroDesignation = ds :: t2 → page.tel = ph :: t3 →
      ∃ s, get_site_instance g url = .ok s) := by
  refine ⟨?_, ?_, ?_, ?_⟩
  · intro g url page hg h
    simp only [get_site_instance, hg, h]
  · intro g url page hg h
    simp only [get_site_instance, hg, h]
    cases page.heroTitle <;> rfl
  · intro g url page hg h
    simp only [get_site_instance, hg, h]
    cases page.heroTitle with
    | nil => rfl
    | cons nm t1 =>
      cases page.heroDesignation <;> rfl
  · intro g url page nm ds ph t1 t2 t3 hg h1 h2 h3
    refine ⟨{ category := ds, name := nm,
              address := match page.addressLocality, page.region with
                         | l :: _, r :: _ => l ++ ", " ++ r
                         | _, _ => ""
              zipcode := match page.postalCode with
                         | z :: _ => pyRstrip z " "
                         | [] => ""
              phone := pyStrip ph "\n" }, ?_⟩
    simp only [get_site_instance, hg, h1, h2, h3]

/-- C10, witness: a concrete page missing the telephone element raises,
and a concrete complete page yields a record. -/
theorem c10_witness :
    get_site_instance gNoTel "u" = .error .indexErr ∧
    (∃ s, get_site_instance gW "u" = .ok s) :=
  ⟨c10_unguarded_extraction.2.2.1 gNoTel "u" pageNoTel (by rfl) (by rfl),
   c10_unguarded_extraction.2.2.2 gW "u" pageW "Isle Royale" "National Park" "\n(906) 482-0984"
     [] [] [] (by rfl) (by rfl) (by rfl) (by rfl)⟩
